import Mathlib

/-!
Verification of the `rust_app_internal_extension` demo
(`src/rust-demo/rust_app_internal_extension/src/main.rs`).

The development shallowly embeds the program:

* A flat JSON layer (objects whose values are strings or integers) models the
  `serde_json` encoding used by the program: `json!(payload).to_string()` for the
  body built by the handler and the derived `Serialize` of `struct Response`.  The
  encoder follows the compact serde_json output (string escaping included); the decoder is
  a straightforward parser for the same flat-object grammar.
* `function_handler` is embedded over a model of
  `LambdaEvent<ApiGatewayProxyRequest>` that keeps the field actually read
  (`request_context.identity.source_ip`) together with representative unread
  fields.  A Rust panic (`Option::unwrap` on `None`) is an explicit outcome.
* `main` is embedded as a function of an environment that supplies the outcomes
  of the external calls (extension registration, signal-handler installation,
  signal delivery, and the results of the two joined futures), returning the
  ordered startup-event trace and the process outcome.

Notes on determinization:
* The Rust `HashMap` iterates in an unspecified order; the embedding fixes the
  insertion order of `payload`.  All statements about the body are about its
  key/value content, which is order-independent in the original.
* `tokio::try_join!` fails with the error of whichever future fails first; the
  embedding determinizes this as left-biased choice, which is faithful for
  every statement proved here (the join fails iff either side fails).
-/

namespace GracefulShutdown

/-! ## Flat JSON values (the subset serde_json produces for this program) -/

/-- A flat JSON value: every value this program ever serializes is either a
string or an integer (`statusCode : i32`). -/
inductive FlatVal where
  | str (s : String)
  | num (n : Int)
deriving DecidableEq, Repr

/-- Hexadecimal digit characters, lower case as emitted by the serde_json
`\u00XX` escapes. -/
def hexDigitChar : Nat → Char
  | 0 => '0' | 1 => '1' | 2 => '2' | 3 => '3' | 4 => '4'
  | 5 => '5' | 6 => '6' | 7 => '7' | 8 => '8' | 9 => '9'
  | 10 => 'a' | 11 => 'b' | 12 => 'c' | 13 => 'd' | 14 => 'e' | 15 => 'f'
  | _ => '?'

/-- Decimal digit test on a character. -/
def isDigitCh (c : Char) : Bool := 48 ≤ c.toNat && c.toNat ≤ 57

/-- Value of a hexadecimal digit character, if it is one. -/
def hexVal (c : Char) : Option Nat :=
  if 48 ≤ c.toNat ∧ c.toNat ≤ 57 then some (c.toNat - 48)
  else if 97 ≤ c.toNat ∧ c.toNat ≤ 102 then some (c.toNat - 87)
  else if 65 ≤ c.toNat ∧ c.toNat ≤ 70 then some (c.toNat - 55)
  else none

/-- The serde_json escaping of one character inside a JSON string:
`"` and `\` get a backslash escape, the named control characters get their
short escapes, the remaining control characters become `\u00XX`, and
everything else is emitted verbatim. -/
def escapeChar (c : Char) : List Char :=
  if c = '"' then ['\\', '"']
  else if c = '\\' then ['\\', '\\']
  else if c = '\u0008' then ['\\', 'b']
  else if c = '\t' then ['\\', 't']
  else if c = '\n' then ['\\', 'n']
  else if c = '\u000C' then ['\\', 'f']
  else if c = '\r' then ['\\', 'r']
  else if c.toNat < 32 then
    ['\\', 'u', '0', '0', hexDigitChar (c.toNat / 16), hexDigitChar (c.toNat % 16)]
  else [c]

/-- Escape a whole character sequence. -/
def escapeList : List Char → List Char
  | [] => []
  | c :: cs => escapeChar c ++ escapeList cs

/-- Prepend a character to the string component of a partial parse. -/
def consFst (c : Char) : Option (List Char × List Char) → Option (List Char × List Char)
  | some (cs, r) => some (c :: cs, r)
  | none => none

/-- Decode the contents of a JSON string up to (and consuming) its closing
quote, returning the decoded characters and the rest of the input.  Mirrors a
JSON string scanner: raw control characters are rejected, `\uXXXX` is accepted
below the surrogate range (the encoder only emits `\u00XX`). -/
def unescape : List Char → Option (List Char × List Char)
  | [] => none
  | c :: rest =>
    if c = '"' then some ([], rest)
    else if c = '\\' then
      match rest with
      | [] => none
      | e :: rest2 =>
        if e = '"' then consFst '"' (unescape rest2)
        else if e = '\\' then consFst '\\' (unescape rest2)
        else if e = '/' then consFst '/' (unescape rest2)
        else if e = 'b' then consFst '\u0008' (unescape rest2)
        else if e = 't' then consFst '\t' (unescape rest2)
        else if e = 'n' then consFst '\n' (unescape rest2)
        else if e = 'f' then consFst '\u000C' (unescape rest2)
        else if e = 'r' then consFst '\r' (unescape rest2)
        else if e = 'u' then
          match rest2 with
          | h1 :: h2 :: h3 :: h4 :: rest3 =>
            match hexVal h1, hexVal h2, hexVal h3, hexVal h4 with
            | some a, some b, some c3, some d =>
              let v := ((a * 16 + b) * 16 + c3) * 16 + d
              if v < 55296 then consFst (Char.ofNat v) (unescape rest3) else none
            | _, _, _, _ => none
          | _ => none
        else none
    else if c.toNat < 32 then none
    else consFst c (unescape rest)

/-- Decimal digits of a natural number, most significant first (the decimal
form `itoa`/serde_json emit: no sign, no leading zeros). -/
def natDigits (n : Nat) : List Char :=
  if _h : n < 10 then [hexDigitChar n]
  else natDigits (n / 10) ++ [hexDigitChar (n % 10)]
termination_by n
decreasing_by exact Nat.div_lt_self (by omega) (by omega)

/-- Decimal form of an integer, as serde_json emits an `i32`. -/
def intChars (n : Int) : List Char :=
  if n < 0 then '-' :: natDigits n.natAbs else natDigits n.toNat

/-- Accumulating decimal scanner: consume leading digits. -/
def parseDigitsAux : List Char → Nat → Nat × List Char
  | [], acc => (acc, [])
  | c :: rest, acc =>
    if isDigitCh c then parseDigitsAux rest (acc * 10 + (c.toNat - 48))
    else (acc, c :: rest)

/-- Parse a natural number (at least one digit required). -/
def parseNat : List Char → Option (Nat × List Char)
  | [] => none
  | c :: rest =>
    if isDigitCh c then some (parseDigitsAux (c :: rest) 0) else none

/-- Parse an optionally negated integer. -/
def parseInt : List Char → Option (Int × List Char)
  | [] => none
  | c :: rest =>
    if c = '-' then
      match parseNat rest with
      | some (m, r) => some (-(m : Int), r)
      | none => none
    else
      match parseNat (c :: rest) with
      | some (m, r) => some ((m : Int), r)
      | none => none

/-- Encode a flat JSON value. -/
def renderVal : FlatVal → List Char
  | .str s => '"' :: (escapeList s.data ++ ['"'])
  | .num n => intChars n

/-- Encode one `"key":value` member. -/
def renderField (k : String) (v : FlatVal) : List Char :=
  '"' :: (escapeList k.data ++ ('"' :: (':' :: renderVal v)))

/-- Encode the members of an object together with the closing brace. -/
def renderFieldsGo : List (String × FlatVal) → List Char
  | [] => ['\u007D']
  | (k, v) :: [] => renderField k v ++ ['\u007D']
  | (k, v) :: f2 :: fs => renderField k v ++ (',' :: renderFieldsGo (f2 :: fs))

/-- Compact encoding of a flat JSON object, as `serde_json::to_string` /
`json!(...).to_string()` produce. -/
def renderFlatObj (fs : List (String × FlatVal)) : String :=
  String.mk ('\u007B' :: renderFieldsGo fs)

/-- Parse one flat value (string or integer). -/
def parseVal : List Char → Option (FlatVal × List Char)
  | [] => none
  | c :: rest =>
    if c = '"' then
      match unescape rest with
      | some (scs, r) => some (.str (String.mk scs), r)
      | none => none
    else
      match parseInt (c :: rest) with
      | some (n, r) => some (.num n, r)
      | none => none

/-- Parse the members of a non-empty flat object, consuming the closing brace.
The fuel argument bounds the number of members. -/
def parseFieldsGo : Nat → List Char → Option (List (String × FlatVal) × List Char)
  | 0, _ => none
  | fuel + 1, cs =>
    match cs with
    | '"' :: rest =>
      (match unescape rest with
       | some (kcs, ':' :: r2) =>
         (match parseVal r2 with
          | some (v, ',' :: r3) =>
            (match parseFieldsGo fuel r3 with
             | some (fs2, r4) => some ((String.mk kcs, v) :: fs2, r4)
             | none => none)
          | some (v, '\u007D' :: r3) => some ([(String.mk kcs, v)], r3)
          | _ => none)
       | _ => none)
    | _ => none

/-- Decode a complete flat JSON object (the whole input must be consumed). -/
def parseFlatObj (s : String) : Option (List (String × FlatVal)) :=
  match s.data with
  | [] => none
  | c :: rest =>
    if c = '\u007B' then
      if rest = ['\u007D'] then some []
      else
        match parseFieldsGo rest.length rest with
        | some (fs, r) => if r = [] then some fs else none
        | none => none
    else none

/-- Bool guard used in the round-trip lemmas: the trailing input does not start
with a decimal digit (so an integer scanner stops exactly at the boundary). -/
def noLeadingDigit : List Char → Bool
  | [] => true
  | c :: _ => !isDigitCh c

/-! ## The Invocation Handler (`function_handler`) and its data -/

/-- The response structure (`struct Response` in main.rs, `#[derive(Serialize)]`,
fields `statusCode: i32` and `body: String`). -/
structure Response where
  statusCode : Int
  body : String
deriving DecidableEq, Repr

/-- The derived serde serialization of `Response`: an object with the two
fields in declaration order. -/
def Response.toJsonString (r : Response) : String :=
  renderFlatObj [("statusCode", .num r.statusCode), ("body", .str r.body)]

/-- The identity block of the API Gateway request context.  `source_ip` is the
only field the handler reads; the other fields stand in for the rest of the
structure (the handler must not depend on them). -/
structure ApiGatewayRequestIdentity where
  source_ip : Option String
  user_agent : Option String
  account_id : Option String
deriving DecidableEq, Repr

/-- The API Gateway request context (`request_context` in the payload). -/
structure ApiGatewayProxyRequestContext where
  identity : ApiGatewayRequestIdentity
  path : Option String
  request_id : Option String
deriving DecidableEq, Repr

/-- The inbound event payload (`ApiGatewayProxyRequest`), reduced to
`request_context` plus representative fields the handler never reads. -/
structure ApiGatewayProxyRequest where
  resource : Option String
  path : Option String
  http_method : String
  headers : List (String × String)
  query_string_parameters : List (String × String)
  request_context : ApiGatewayProxyRequestContext
  body : Option String
deriving DecidableEq, Repr

/-- The Lambda invocation context delivered alongside the payload. -/
structure Context where
  request_id : String
  deadline : Nat
  invoked_function_arn : String
deriving DecidableEq, Repr

/-- `LambdaEvent<ApiGatewayProxyRequest>`: payload plus context. -/
structure LambdaEvent where
  payload : ApiGatewayProxyRequest
  context : Context
deriving DecidableEq, Repr

/-- Outcome of one invocation of the handler.  The Rust type
`Result<Response, Error>` contributes `ok` and `err`; a panic (here only the
`Option::unwrap` on a missing `source_ip`) is a distinct outcome that never
constructs the `Err` variant. -/
inductive HandlerOutcome where
  | ok (r : Response)
  | err (e : String)
  | panicked (msg : String)
deriving DecidableEq, Repr

/-- The handler body (main.rs lines 31–54).  `arch` and `os` are the
compile-time constants `std::env::consts::ARCH` / `std::env::consts::OS` of the
build target.  The payload map is built with the four inserts of the source (a
`HashMap` there; insertion order fixed here, see the header note), then encoded
with `json!(payload).to_string()` and wrapped in a status-200 `Response`. -/
def function_handler (arch os : String) (event : LambdaEvent) : HandlerOutcome :=
  match event.payload.request_context.identity.source_ip with
  | none => .panicked "called `Option::unwrap()` on a `None` value"
  | some source_ip =>
    let payload : List (String × FlatVal) :=
      [("message", .str "hello rust"),
       ("source ip", .str source_ip),
       ("architecture", .str arch),
       ("operating system", .str os)]
    let body_content := renderFlatObj payload
    .ok { statusCode := 200, body := body_content }

/-! ## The Shutdown Listener and `main` -/

/-- A termination signal variant (`ShutdownSignal` over SIGINT/SIGTERM). -/
inductive Signal where
  | interrupt
  | terminate
deriving DecidableEq, Repr

/-- First log line of the shutdown sequence, naming the received signal. -/
def receivedLine : Signal → String
  | .interrupt => "[runtime] SIGINT received"
  | .terminate => "[runtime] SIGTERM received"

/-- The three log lines the listener prints on a signal, in program order. -/
def shutdownLogs (s : Signal) : List String :=
  [receivedLine s,
   "[runtime] Graceful shutdown in progress ...",
   "[runtime] Graceful shutdown completed"]

/-- Outcome of the spawned listener task once a signal is delivered:
either it runs the shutdown sequence and exits the whole process, or it had
already panicked while installing a signal handler (`signal(...).unwrap()`). -/
inductive TaskOutcome where
  | processExit (code : Nat) (logs : List String)
  | taskPanic (msg : String)
deriving DecidableEq, Repr

/-- The body of the spawned task (main.rs lines 87–104): install the SIGINT
handler, then the SIGTERM handler (each `unwrap`ped), then `select!` over the
two streams; either arm logs the three phase lines and calls
`std::process::exit(0)`. -/
def shutdown_listener (sigintOk sigtermOk : Bool) (sig : Signal) : TaskOutcome :=
  if sigintOk = false then
    .taskPanic "called `Result::unwrap()` on an `Err` value"
  else if sigtermOk = false then
    .taskPanic "called `Result::unwrap()` on an `Err` value"
  else
    .processExit 0 (shutdownLogs sig)

/-- `tokio::try_join!` on two completed futures: fails iff either side fails
(left-biased determinization of "the error of the first to fail"). -/
def tryJoin (a b : Except String Unit) : Except String Unit :=
  match a with
  | .error e => .error e
  | .ok _ => b

/-- Which of the two concurrent continuations resolves first after startup:
either a termination signal arrives, or the `try_join!` of the runtime future
and the extension future completes. -/
inductive RaceWinner where
  | signal (s : Signal)
  | join
deriving DecidableEq, Repr

/-- Environment of one program run: outcomes of the external calls `main`
performs.  `registerOk` — whether `Extension::register()` succeeds;
`sigintOk` / `sigtermOk` — whether the two `signal(...)` installations succeed;
`race` — which continuation resolves first; `runResult` / `extRunResult` — the
results of `lambda_runtime::run(...)` and `extension.run()` if the join
completes. -/
structure Env where
  registerOk : Bool
  sigintOk : Bool
  sigtermOk : Bool
  race : RaceWinner
  runResult : Except String Unit
  extRunResult : Except String Unit

/-- Ordered milestones of the startup of `main` (main.rs lines 56–113). -/
inductive MainEvent where
  | initTracing
  | registerAttempt
  | registerDone
  | spawnListener
  | startInvokeLoop
deriving DecidableEq, BEq, Repr

/-- The startup trace: tracing init, then the registration attempt; on success
registration completes, the listener is spawned, and the `try_join!` starts the
invocation loop; on failure the `.expect` panic ends the trace. -/
def startupEvents (registerOk : Bool) : List MainEvent :=
  if registerOk then
    [.initTracing, .registerAttempt, .registerDone, .spawnListener, .startInvokeLoop]
  else
    [.initTracing, .registerAttempt]

/-- How the process ends.  `panicked` — a panic in the main task (the
registration `.expect`), a fatal non-zero abort; `exited c logs` — the listener
called `std::process::exit(c)` after printing `logs`; `returned r` — `main`
returned `r` (an `Err` makes the process exit non-zero); `killedBySignal` — a
signal hit its default disposition because no handler was listening. -/
inductive MainOutcome where
  | panicked (msg : String)
  | exited (code : Nat) (logs : List String)
  | returned (r : Except String Unit)
  | killedBySignal (s : Signal)

/-- Result of one run of `main`: the ordered startup trace, the process
outcome, and whether the spawned listener task panicked (a panic inside
`tokio::spawn` is caught by the runtime and confined to that task; its
`JoinHandle` is dropped, so nothing rethrows it). -/
structure MainResult where
  events : List MainEvent
  outcome : MainOutcome
  listenerPanicked : Bool

/-- The whole program (main.rs lines 56–113).  Sequentially: tracing setup;
`Extension::new()...register().await.expect(...)` — on failure the trace stops
there with a panic; `tokio::spawn` of the listener; then
`tokio::try_join!(lambda_runtime::run(...), extension.run())?`.  If a signal
wins the race and the listener is alive, the process exits through the
listener.  If the listener had panicked during handler installation, a SIGINT
is swallowed by the orphaned global tokio handler when it was installed before
the panic, and any other signal takes its default disposition; absent a
signal, the result of the join is returned (`?` propagates its error). -/
def main (env : Env) : MainResult :=
  if env.registerOk then
    let outcome :=
      match env.race with
      | .signal s =>
        match shutdown_listener env.sigintOk env.sigtermOk s with
        | .processExit c logs => MainOutcome.exited c logs
        | .taskPanic _ =>
          match s, env.sigintOk with
          | .interrupt, true => MainOutcome.returned (tryJoin env.runResult env.extRunResult)
          | _, _ => MainOutcome.killedBySignal s
      | .join => MainOutcome.returned (tryJoin env.runResult env.extRunResult)
    { events := startupEvents true
      outcome := outcome
      listenerPanicked := !(env.sigintOk && env.sigtermOk) }
  else
    { events := startupEvents false
      outcome := .panicked "could not register extension"
      listenerPanicked := false }

/-! ## Concrete fixtures for witnesses and counterexamples -/

/-- A sample inbound event with `source_ip` present. -/
def sampleEvent (ip : Option String) (bodyField : Option String) : LambdaEvent :=
  { payload :=
      { resource := some "/hello"
        path := some "/hello"
        http_method := "GET"
        headers := [("accept", "*/*")]
        query_string_parameters := []
        request_context :=
          { identity :=
              { source_ip := ip
                user_agent := some "curl/8.0"
                account_id := none }
            path := some "/hello"
            request_id := some "r-1" }
        body := bodyField }
    context :=
      { request_id := "ctx-1"
        deadline := 30000
        invoked_function_arn := "arn:demo" } }

/-- A sample event with source address 127.0.0.1. -/
def eventWitness : LambdaEvent := sampleEvent (some "127.0.0.1") (some "ignored payload")

/-- A sample event with no source address. -/
def eventNoIp : LambdaEvent := sampleEvent none (some "ignored payload")

/-- A sample event whose source address is the empty string. -/
def eventEmptyIp : LambdaEvent := sampleEvent (some "") none

/-- First of two events agreeing only on the source address. -/
def eventA : LambdaEvent := sampleEvent (some "10.0.0.1") (some "body A")

/-- Second of two events agreeing only on the source address: every other
field differs from `eventA`. -/
def eventB : LambdaEvent :=
  { payload :=
      { resource := none
        path := some "/other"
        http_method := "POST"
        headers := [("content-type", "application/json")]
        query_string_parameters := [("q", "1")]
        request_context :=
          { identity :=
              { source_ip := some "10.0.0.1"
                user_agent := none
                account_id := some "acct-9" }
            path := none
            request_id := some "r-2" }
        body := some "body B" }
    context :=
      { request_id := "ctx-2"
        deadline := 1000
        invoked_function_arn := "arn:other" } }

/-- Environment of a clean run that receives a SIGTERM. -/
def envSigterm : Env :=
  { registerOk := true, sigintOk := true, sigtermOk := true
    race := .signal .terminate, runResult := .ok (), extRunResult := .ok () }

/-- Environment in which the SIGINT handler installation fails but everything
else succeeds and no signal ever arrives. -/
def envSigintInstallFails : Env :=
  { registerOk := true, sigintOk := false, sigtermOk := true
    race := .join, runResult := .ok (), extRunResult := .ok () }

/-- Environment in which registration fails. -/
def envRegisterFails : Env :=
  { registerOk := false, sigintOk := true, sigtermOk := true
    race := .join, runResult := .ok (), extRunResult := .ok () }

/-- Environment in which the runtime-driver future fails and the join resolves. -/
def envRunFails : Env :=
  { registerOk := true, sigintOk := true, sigtermOk := true
    race := .join, runResult := .error "runtime task failed", extRunResult := .ok () }

/-- Environment in which the SIGTERM handler installation fails, so the
shutdown-listener task itself fails, while both joined futures succeed. -/
def envListenerFails : Env :=
  { registerOk := true, sigintOk := true, sigtermOk := false
    race := .join, runResult := .ok (), extRunResult := .ok () }

/-! ## Round-trip lemmas for the flat JSON layer -/

theorem stringMk_data (s : String) : String.mk s.data = s := by
  cases s
  rfl

theorem hexVal_hexDigitChar (m : Nat) (h : m < 16) :
    hexVal (hexDigitChar m) = some m := by
  interval_cases m <;> decide

theorem isDigitCh_hexDigitChar (m : Nat) (h : m < 10) :
    isDigitCh (hexDigitChar m) = true := by
  interval_cases m <;> decide

theorem toNat_hexDigitChar_sub (m : Nat) (h : m < 10) :
    (hexDigitChar m).toNat - 48 = m := by
  interval_cases m <;> decide

theorem unescape_close (r : List Char) : unescape ('"' :: r) = some ([], r) := by
  rw [unescape.eq_def]
  exact rfl

theorem unescape_esc_quote (r : List Char) :
    unescape ('\\' :: '"' :: r) = consFst '"' (unescape r) := by
  rw [unescape.eq_def]
  exact rfl

theorem unescape_esc_backslash (r : List Char) :
    unescape ('\\' :: '\\' :: r) = consFst '\\' (unescape r) := by
  rw [unescape.eq_def]
  exact rfl

theorem unescape_esc_b (r : List Char) :
    unescape ('\\' :: 'b' :: r) = consFst '\u0008' (unescape r) := by
  rw [unescape.eq_def]
  exact rfl

theorem unescape_esc_t (r : List Char) :
    unescape ('\\' :: 't' :: r) = consFst '\t' (unescape r) := by
  rw [unescape.eq_def]
  exact rfl

theorem unescape_esc_n (r : List Char) :
    unescape ('\\' :: 'n' :: r) = consFst '\n' (unescape r) := by
  rw [unescape.eq_def]
  exact rfl

theorem unescape_esc_f (r : List Char) :
    unescape ('\\' :: 'f' :: r) = consFst '\u000C' (unescape r) := by
  rw [unescape.eq_def]
  exact rfl

theorem unescape_esc_r (r : List Char) :
    unescape ('\\' :: 'r' :: r) = consFst '\r' (unescape r) := by
  rw [unescape.eq_def]
  exact rfl

theorem unescape_esc_u (h1c h2c h3c h4c : Char) (a b c3 d : Nat)
    (e1 : hexVal h1c = some a) (e2 : hexVal h2c = some b)
    (e3 : hexVal h3c = some c3) (e4 : hexVal h4c = some d)
    (hv : ((a * 16 + b) * 16 + c3) * 16 + d < 55296) (r : List Char) :
    unescape ('\\' :: 'u' :: h1c :: h2c :: h3c :: h4c :: r) =
      consFst (Char.ofNat (((a * 16 + b) * 16 + c3) * 16 + d)) (unescape r) := by
  rw [unescape.eq_def]
  simp [e1, e2, e3, e4, hv]

theorem unescape_raw (c : Char) (h1 : ¬ c = '"') (h2 : ¬ c = '\\')
    (h3 : ¬ c.toNat < 32) (r : List Char) :
    unescape (c :: r) = consFst c (unescape r) := by
  rw [unescape.eq_def]
  simp [h1, h2, h3]

/-- Decoding inverts encoding for JSON string contents: the escaped form of
`cs` followed by a closing quote and arbitrary trailing input decodes back to
`cs` with the trailing input untouched. -/
theorem unescape_escapeList (cs : List Char) : ∀ rest : List Char,
    unescape (escapeList cs ++ '"' :: rest) = some (cs, rest) := by
  induction cs with
  | nil =>
    intro rest
    simpa [escapeList] using unescape_close rest
  | cons c cs ih =>
    intro rest
    rw [escapeList, List.append_assoc]
    by_cases hq : c = '"'
    · subst hq
      have he : escapeChar '"' = ['\\', '"'] := by decide
      rw [he]
      simp only [List.cons_append, List.nil_append]
      rw [unescape_esc_quote, ih, consFst]
    · by_cases hbs : c = '\\'
      · subst hbs
        have he : escapeChar '\\' = ['\\', '\\'] := by decide
        rw [he]
        simp only [List.cons_append, List.nil_append]
        rw [unescape_esc_backslash, ih, consFst]
      · by_cases hb : c = '\u0008'
        · subst hb
          have he : escapeChar '\u0008' = ['\\', 'b'] := by decide
          rw [he]
          simp only [List.cons_append, List.nil_append]
          rw [unescape_esc_b, ih, consFst]
        · by_cases ht : c = '\t'
          · subst ht
            have he : escapeChar '\t' = ['\\', 't'] := by decide
            rw [he]
            simp only [List.cons_append, List.nil_append]
            rw [unescape_esc_t, ih, consFst]
          · by_cases hn : c = '\n'
            · subst hn
              have he : escapeChar '\n' = ['\\', 'n'] := by decide
              rw [he]
              simp only [List.cons_append, List.nil_append]
              rw [unescape_esc_n, ih, consFst]
            · by_cases hf : c = '\u000C'
              · subst hf
                have he : escapeChar '\u000C' = ['\\', 'f'] := by decide
                rw [he]
                simp only [List.cons_append, List.nil_append]
                rw [unescape_esc_f, ih, consFst]
              · by_cases hr : c = '\r'
                · subst hr
                  have he : escapeChar '\r' = ['\\', 'r'] := by decide
                  rw [he]
                  simp only [List.cons_append, List.nil_append]
                  rw [unescape_esc_r, ih, consFst]
                · by_cases h32 : c.toNat < 32
                  · have he : escapeChar c = ['\\', 'u', '0', '0',
                        hexDigitChar (c.toNat / 16), hexDigitChar (c.toNat % 16)] := by
                      rw [escapeChar]
                      rw [if_neg hq, if_neg hbs, if_neg hb, if_neg ht, if_neg hn,
                        if_neg hf, if_neg hr, if_pos h32]
                    rw [he]
                    simp only [List.cons_append, List.nil_append]
                    have e0 : hexVal '0' = some 0 := by decide
                    have e3 : hexVal (hexDigitChar (c.toNat / 16)) = some (c.toNat / 16) :=
                      hexVal_hexDigitChar _ (by omega)
                    have e4 : hexVal (hexDigitChar (c.toNat % 16)) = some (c.toNat % 16) :=
                      hexVal_hexDigitChar _ (by omega)
                    rw [unescape_esc_u '0' '0' _ _ 0 0 _ _ e0 e0 e3 e4 (by omega)]
                    rw [show ((0 * 16 + 0) * 16 + c.toNat / 16) * 16 + c.toNat % 16 = c.toNat
                      from by omega]
                    rw [Char.ofNat_toNat, ih, consFst]
                  · have he : escapeChar c = [c] := by
                      rw [escapeChar]
                      rw [if_neg hq, if_neg hbs, if_neg hb, if_neg ht, if_neg hn,
                        if_neg hf, if_neg hr, if_neg h32]
                    rw [he]
                    simp only [List.cons_append, List.nil_append]
                    rw [unescape_raw c hq hbs h32, ih, consFst]

theorem natDigits_cons (n : Nat) :
    ∃ d tl, natDigits n = d :: tl ∧ isDigitCh d = true := by
  induction n using Nat.strong_induction_on with
  | _ n ih =>
    rw [natDigits]
    by_cases h : n < 10
    · rw [dif_pos h]
      exact ⟨hexDigitChar n, [], rfl, isDigitCh_hexDigitChar n h⟩
    · rw [dif_neg h]
      obtain ⟨d, tl, heq, hd⟩ := ih (n / 10) (Nat.div_lt_self (by omega) (by omega))
      exact ⟨d, tl ++ [hexDigitChar (n % 10)], by rw [heq]; rfl, hd⟩

theorem parseDigitsAux_stop (rest : List Char) (acc : Nat)
    (h : noLeadingDigit rest = true) : parseDigitsAux rest acc = (acc, rest) := by
  cases rest with
  | nil => rfl
  | cons c tl =>
    have : isDigitCh c = false := by
      simpa [noLeadingDigit] using h
    simp [parseDigitsAux, this]

theorem parseDigitsAux_natDigits (n : Nat) : ∀ acc rest,
    parseDigitsAux (natDigits n ++ rest) acc =
      parseDigitsAux rest (acc * 10 ^ (natDigits n).length + n) := by
  induction n using Nat.strong_induction_on with
  | _ n ih =>
    intro acc rest
    by_cases h : n < 10
    · rw [natDigits, dif_pos h]
      simp only [List.cons_append, List.nil_append, List.length_cons, List.length_nil]
      rw [parseDigitsAux, if_pos (isDigitCh_hexDigitChar n h)]
      rw [toNat_hexDigitChar_sub n h]
      norm_num
    · rw [natDigits, dif_neg h]
      rw [List.append_assoc]
      rw [ih (n / 10) (Nat.div_lt_self (by omega) (by omega))]
      simp only [List.cons_append, List.nil_append]
      rw [parseDigitsAux, if_pos (isDigitCh_hexDigitChar (n % 10) (by omega))]
      rw [toNat_hexDigitChar_sub (n % 10) (by omega)]
      have hdm : n / 10 * 10 + n % 10 = n := by omega
      have harith :
          (acc * 10 ^ (natDigits (n / 10)).length + n / 10) * 10 + n % 10 =
            acc * 10 ^ ((natDigits (n / 10)).length + 1) + n := by
        calc (acc * 10 ^ (natDigits (n / 10)).length + n / 10) * 10 + n % 10
            = acc * (10 ^ (natDigits (n / 10)).length * 10) + (n / 10 * 10 + n % 10) := by
              ring
          _ = acc * 10 ^ ((natDigits (n / 10)).length + 1) + n := by
              rw [hdm, pow_succ]
      rw [harith]
      congr 1
      simp

theorem parseNat_natDigits (n : Nat) (rest : List Char)
    (h : noLeadingDigit rest = true) :
    parseNat (natDigits n ++ rest) = some (n, rest) := by
  obtain ⟨d, tl, heq, hd⟩ := natDigits_cons n
  rw [heq]
  simp only [List.cons_append]
  rw [parseNat, if_pos hd]
  rw [show (d :: (tl ++ rest)) = natDigits n ++ rest from by rw [heq]; rfl]
  rw [parseDigitsAux_natDigits n 0 rest]
  rw [Nat.zero_mul, Nat.zero_add]
  rw [parseDigitsAux_stop rest n h]

theorem parseInt_intChars (n : Int) (rest : List Char)
    (h : noLeadingDigit rest = true) :
    parseInt (intChars n ++ rest) = some (n, rest) := by
  by_cases hneg : n < 0
  · rw [intChars, if_pos hneg]
    simp only [List.cons_append]
    rw [parseInt, if_pos rfl]
    rw [parseNat_natDigits n.natAbs rest h]
    have habs : ((n.natAbs : Nat) : Int) = -n := by omega
    simp [habs]
  · rw [intChars, if_neg hneg]
    obtain ⟨d, tl, heq, hd⟩ := natDigits_cons n.toNat
    rw [heq]
    simp only [List.cons_append]
    have hdm : ¬ d = '-' := by
      intro hcontra
      rw [hcontra] at hd
      exact absurd hd (by decide)
    rw [parseInt, if_neg hdm]
    rw [show (d :: (tl ++ rest)) = natDigits n.toNat ++ rest from by rw [heq]; rfl]
    rw [parseNat_natDigits n.toNat rest h]
    have htn : ((n.toNat : Nat) : Int) = n := by omega
    simp [htn]

theorem parseVal_renderVal (v : FlatVal) (rest : List Char)
    (h : noLeadingDigit rest = true) :
    parseVal (renderVal v ++ rest) = some (v, rest) := by
  cases v with
  | str s =>
    rw [renderVal]
    simp only [List.cons_append, List.append_assoc, List.nil_append]
    rw [parseVal, if_pos rfl]
    rw [unescape_escapeList s.data rest]
  | num n =>
    have hshape : ∃ c0 tl0, intChars n = c0 :: tl0 ∧ ¬ c0 = '"' := by
      by_cases hneg : n < 0
      · exact ⟨'-', natDigits n.natAbs, by rw [intChars, if_pos hneg], by decide⟩
      · obtain ⟨d, tl, heq, hd⟩ := natDigits_cons n.toNat
        refine ⟨d, tl, by rw [intChars, if_neg hneg, heq], ?_⟩
        intro hc
        rw [hc] at hd
        exact absurd hd (by decide)
    obtain ⟨c0, tl0, heq, hne⟩ := hshape
    rw [renderVal, heq]
    simp only [List.cons_append]
    rw [parseVal, if_neg hne]
    rw [show (c0 :: (tl0 ++ rest)) = intChars n ++ rest from by rw [heq]; rfl]
    rw [parseInt_intChars n rest h]

theorem parseFieldsGo_last (fuel : Nat) (k : String) (v : FlatVal) :
    parseFieldsGo (fuel + 1) (renderField k v ++ ['\u007D']) = some ([(k, v)], []) := by
  rw [renderField]
  simp only [List.cons_append, List.append_assoc, List.nil_append]
  have h1 : unescape (escapeList k.data ++ '"' :: (':' :: (renderVal v ++ ['\u007D']))) =
      some (k.data, ':' :: (renderVal v ++ ['\u007D'])) := unescape_escapeList _ _
  have h2 : parseVal (renderVal v ++ ['\u007D']) = some (v, ['\u007D']) :=
    parseVal_renderVal v _ (by decide)
  simp [parseFieldsGo, h1, h2, stringMk_data]

theorem parseFieldsGo_more (fuel : Nat) (k : String) (v : FlatVal) (more : List Char) :
    parseFieldsGo (fuel + 1) (renderField k v ++ (',' :: more)) =
      match parseFieldsGo fuel more with
      | some (fs2, r4) => some ((k, v) :: fs2, r4)
      | none => none := by
  rw [renderField]
  simp only [List.cons_append, List.append_assoc, List.nil_append]
  have h1 : unescape (escapeList k.data ++ '"' :: (':' :: (renderVal v ++ (',' :: more)))) =
      some (k.data, ':' :: (renderVal v ++ (',' :: more))) := unescape_escapeList _ _
  have h2 : parseVal (renderVal v ++ (',' :: more)) = some (v, ',' :: more) :=
    parseVal_renderVal v (',' :: more) rfl
  simp [parseFieldsGo, h1, h2, stringMk_data]

theorem renderFieldsGo_length (fs : List (String × FlatVal)) :
    fs.length ≤ (renderFieldsGo fs).length := by
  induction fs with
  | nil => simp [renderFieldsGo]
  | cons f fs ih =>
    obtain ⟨k, v⟩ := f
    cases fs with
    | nil => simp [renderFieldsGo, renderField]
    | cons f2 fs2 =>
      rw [renderFieldsGo]
      simp only [List.length_append, List.length_cons]
      have hf : 1 ≤ (renderField k v).length := by
        rw [renderField]
        simp
      simp only [List.length_cons] at ih
      omega

theorem renderFieldsGo_head (f : String × FlatVal) (fs : List (String × FlatVal)) :
    ∃ tl, renderFieldsGo (f :: fs) = '"' :: tl := by
  obtain ⟨k, v⟩ := f
  cases fs with
  | nil =>
    exact ⟨escapeList k.data ++ ('"' :: (':' :: renderVal v)) ++ ['\u007D'],
      by rw [renderFieldsGo, renderField]; simp⟩
  | cons f2 fs2 =>
    exact ⟨escapeList k.data ++ ('"' :: (':' :: renderVal v)) ++
        (',' :: renderFieldsGo (f2 :: fs2)),
      by rw [renderFieldsGo, renderField]; simp⟩

theorem parseFieldsGo_renderFieldsGo (fs : List (String × FlatVal)) :
    ∀ fuel : Nat, fs ≠ [] → fs.length ≤ fuel →
      parseFieldsGo fuel (renderFieldsGo fs) = some (fs, []) := by
  induction fs with
  | nil =>
    intro fuel hne _
    exact absurd rfl hne
  | cons f fs ih =>
    intro fuel _ hlen
    obtain ⟨k, v⟩ := f
    obtain ⟨fuel, rfl⟩ : ∃ m, fuel = m + 1 := by
      refine ⟨fuel - 1, ?_⟩
      simp at hlen
      omega
    cases fs with
    | nil =>
      rw [renderFieldsGo]
      exact parseFieldsGo_last fuel k v
    | cons f2 fs2 =>
      rw [renderFieldsGo]
      rw [parseFieldsGo_more fuel k v (renderFieldsGo (f2 :: fs2))]
      rw [ih fuel (by simp) (by simp at hlen ⊢; omega)]

/-- Decoding inverts encoding for flat JSON objects: the compact rendering of
any association list of flat values parses back to exactly that list. -/
theorem parseFlatObj_renderFlatObj (fs : List (String × FlatVal)) :
    parseFlatObj (renderFlatObj fs) = some fs := by
  cases fs with
  | nil => decide
  | cons f fs2 =>
    obtain ⟨tl, htl⟩ := renderFieldsGo_head f fs2
    have hlen := renderFieldsGo_length (f :: fs2)
    rw [renderFlatObj, parseFlatObj]
    show (if '\u007B' = '\u007B' then _ else none) = some (f :: fs2)
    rw [if_pos rfl]
    rw [if_neg (by rw [htl]; simp)]
    rw [parseFieldsGo_renderFieldsGo (f :: fs2) (renderFieldsGo (f :: fs2)).length
      (by simp) hlen]
    rfl

/-! ## Claim theorems: the Invocation Handler -/

/-- C2: for every inbound event whose source-address field is present, the
handler returns a response with status code exactly 200 and a body whose
decoded JSON contains exactly the four keys message, source ip, architecture
and operating system, bound to the constant greeting, the source address, and
the build-target architecture and OS constants. -/
theorem C2_handler_ok_four_keys (arch os : String) (event : LambdaEvent)
    (ip : String)
    (h : event.payload.request_context.identity.source_ip = some ip) :
    ∃ r, function_handler arch os event = .ok r ∧ r.statusCode = 200 ∧
      parseFlatObj r.body =
        some [("message", .str "hello rust"), ("source ip", .str ip),
              ("architecture", .str arch), ("operating system", .str os)] := by
  simp only [function_handler, h]
  exact ⟨_, rfl, rfl, parseFlatObj_renderFlatObj _⟩

/-- Witness for C2 at a concrete event. -/
theorem C2_witness :
    ∃ r, function_handler "x86_64" "linux" eventWitness = .ok r ∧
      r.statusCode = 200 ∧
      parseFlatObj r.body =
        some [("message", .str "hello rust"), ("source ip", .str "127.0.0.1"),
              ("architecture", .str "x86_64"), ("operating system", .str "linux")] :=
  C2_handler_ok_four_keys "x86_64" "linux" eventWitness "127.0.0.1" rfl

/-- C3: the handler fails (returns no `ok` response at all, hence no 200) if
and only if the source-address field is absent; the failure is the
`Option::unwrap` panic. -/
theorem C3_fails_iff_absent (arch os : String) (event : LambdaEvent) :
    ((∀ r, function_handler arch os event ≠ .ok r) ↔
      event.payload.request_context.identity.source_ip = none) ∧
    (event.payload.request_context.identity.source_ip = none →
      function_handler arch os event =
        .panicked "called `Option::unwrap()` on a `None` value") := by
  cases hsi : event.payload.request_context.identity.source_ip with
  | none =>
    refine ⟨⟨fun _ => rfl, fun _ => ?_⟩, fun _ => ?_⟩
    · intro r
      simp [function_handler, hsi]
    · simp [function_handler, hsi]
  | some ip =>
    refine ⟨⟨fun hall => ?_, fun hnone => ?_⟩, fun hnone => ?_⟩
    · have hr : function_handler arch os event = HandlerOutcome.ok
          { statusCode := 200
            body := renderFlatObj
              [("message", .str "hello rust"), ("source ip", .str ip),
               ("architecture", .str arch), ("operating system", .str os)] } := by
        simp [function_handler, hsi]
      exact absurd hr (hall _)
    · exact absurd hnone (by simp)
    · exact absurd hnone (by simp)

/-- Witness for C3 at a concrete event missing the source address. -/
theorem C3_witness :
    function_handler "x86_64" "linux" eventNoIp =
      .panicked "called `Option::unwrap()` on a `None` value" :=
  (C3_fails_iff_absent "x86_64" "linux" eventNoIp).2 rfl

/-- C9: the output of the handler depends only on the source-address field —
two events with the same present source address get identical responses, no
matter how every other part of the payload or context differs. -/
theorem C9_depends_only_on_source_ip (arch os : String) (e1 e2 : LambdaEvent)
    (ip : String)
    (h1 : e1.payload.request_context.identity.source_ip = some ip)
    (h2 : e2.payload.request_context.identity.source_ip = some ip) :
    function_handler arch os e1 = function_handler arch os e2 := by
  simp [function_handler, h1, h2]

/-- Witness for C9: two events that differ in every modelled field except the
source address produce the same response. -/
theorem C9_witness :
    function_handler "x86_64" "linux" eventA = function_handler "x86_64" "linux" eventB ∧
      eventA ≠ eventB :=
  ⟨C9_depends_only_on_source_ip "x86_64" "linux" eventA eventB "10.0.0.1" rfl rfl,
    by decide⟩

/-- C10: the handler never constructs the `Err` variant of its result type;
whenever the source address is present — the empty string included — it
returns `Ok` with status 200, and the only failure mode for an absent field is
a panic. -/
theorem C10_never_err (arch os : String) (event : LambdaEvent) :
    (∀ e, function_handler arch os event ≠ .err e) ∧
    (∀ ip, event.payload.request_context.identity.source_ip = some ip →
      ∃ r, function_handler arch os event = .ok r ∧ r.statusCode = 200) ∧
    (event.payload.request_context.identity.source_ip = none →
      ∃ msg, function_handler arch os event = .panicked msg) := by
  refine ⟨?_, ?_, ?_⟩
  · intro e
    cases hsi : event.payload.request_context.identity.source_ip with
    | none => simp [function_handler, hsi]
    | some ip => simp [function_handler, hsi]
  · intro ip hip
    simp only [function_handler, hip]
    exact ⟨_, rfl, rfl⟩
  · intro hnone
    simp only [function_handler, hnone]
    exact ⟨_, rfl⟩

/-- Witness for C10 at a concrete event whose source address is the empty
string. -/
theorem C10_witness :
    ∃ r, function_handler "x86_64" "linux" eventEmptyIp = .ok r ∧
      r.statusCode = 200 :=
  (C10_never_err "x86_64" "linux" eventEmptyIp).2.1 "" rfl

/-- C8: serializing any `Response` and parsing the result back yields a
structurally identical mapping — both fields survive and the status-code
integer is unchanged. -/
theorem C8_response_roundtrip (r : Response) :
    parseFlatObj r.toJsonString =
      some [("statusCode", FlatVal.num r.statusCode), ("body", FlatVal.str r.body)] :=
  parseFlatObj_renderFlatObj _

/-! ## Claim theorems: startup, shutdown and failure propagation -/

/-- C1: whenever a termination signal (either variant) reaches the live
shutdown listener, the process exits with code 0 after exactly the three log
lines — received, in progress, completed — in that fixed order; the two
variants differ only in the name inside the received line. -/
theorem C1_signal_three_logs_exit_zero (env : Env) (sig : Signal)
    (hreg : env.registerOk = true) (hi : env.sigintOk = true)
    (ht : env.sigtermOk = true) (hrace : env.race = .signal sig) :
    (main env).outcome = .exited 0
      [receivedLine sig,
       "[runtime] Graceful shutdown in progress ...",
       "[runtime] Graceful shutdown completed"] ∧
    (shutdownLogs .interrupt).tail = (shutdownLogs .terminate).tail := by
  constructor
  · simp [main, hreg, hrace, shutdown_listener, hi, ht, shutdownLogs]
  · rfl

/-- Witness for C1: a clean run receiving SIGTERM. -/
theorem C1_witness :
    (main envSigterm).outcome = .exited 0
      [receivedLine .terminate,
       "[runtime] Graceful shutdown in progress ...",
       "[runtime] Graceful shutdown completed"] ∧
    (shutdownLogs .interrupt).tail = (shutdownLogs .terminate).tail :=
  C1_signal_three_logs_exit_zero envSigterm .terminate rfl rfl rfl rfl

/-- C4: in every execution whose trace reaches the start of the invocation
loop, registration succeeded, and the completed registration strictly precedes
the (first and only) start of the loop in the trace. -/
theorem C4_registration_before_loop (env : Env)
    (h : MainEvent.startInvokeLoop ∈ (main env).events) :
    env.registerOk = true ∧
    ∃ pre suf, (main env).events = pre ++ MainEvent.startInvokeLoop :: suf ∧
      MainEvent.registerDone ∈ pre ∧ MainEvent.startInvokeLoop ∉ pre := by
  cases hreg : env.registerOk with
  | false =>
    exfalso
    simp [main, hreg, startupEvents] at h
  | true =>
    refine ⟨rfl, [.initTracing, .registerAttempt, .registerDone, .spawnListener], [],
      ?_, by simp, by simp⟩
    simp [main, hreg, startupEvents]

/-- Witness for C4 at a concrete environment. -/
theorem C4_witness :
    envSigterm.registerOk = true ∧
    ∃ pre suf, (main envSigterm).events = pre ++ MainEvent.startInvokeLoop :: suf ∧
      MainEvent.registerDone ∈ pre ∧ MainEvent.startInvokeLoop ∉ pre :=
  C4_registration_before_loop envSigterm (by simp [main, envSigterm, startupEvents])

/-- C5 counterexample: the claim as stated — the Runtime Driver task and the
Shutdown Listener task are joined so that if either fails the whole process
fails — is false of the code.  `tokio::try_join!` joins
`lambda_runtime::run(...)` with `extension.run()`; the Shutdown Listener is a
detached `tokio::spawn`.  Here the listener task fails (its SIGTERM
`signal(...).unwrap()` panics) while both joined futures succeed, and the
process does not fail: main returns success. -/
theorem C5_counterexample :
    (main envListenerFails).listenerPanicked = true ∧
    (∀ s, shutdown_listener envListenerFails.sigintOk envListenerFails.sigtermOk s =
      .taskPanic "called `Result::unwrap()` on an `Err` value") ∧
    (main envListenerFails).outcome = .returned (.ok ()) := by
  refine ⟨rfl, fun s => rfl, rfl⟩

/-- C5 (amended): the two futures actually joined by `try_join!` — the
runtime-driver future `lambda_runtime::run(...)` and the extension future
`extension.run()` — fail together: when the join resolves and either of them
has failed, the process fails (main returns an error, a non-zero exit); the
trace shows the invocation loop and the listener spawn each happened exactly
once — there is no restart of a failed task.  The Shutdown Listener is not
part of this join (see `C5_counterexample`). -/
theorem C5_join_failure_fails_process (env : Env) (e : String)
    (hreg : env.registerOk = true) (hrace : env.race = .join)
    (hfail : env.runResult = .error e ∨ env.extRunResult = .error e) :
    (∃ e2, (main env).outcome = .returned (.error e2)) ∧
    (main env).events.count .startInvokeLoop = 1 ∧
    (main env).events.count .spawnListener = 1 := by
  have hev : (main env).events = startupEvents true := by
    simp [main, hreg]
  have hout : (main env).outcome = .returned (tryJoin env.runResult env.extRunResult) := by
    simp [main, hreg, hrace]
  refine ⟨?_, by rw [hev]; decide, by rw [hev]; decide⟩
  rcases hfail with hf | hf
  · exact ⟨e, by rw [hout, hf]; rfl⟩
  · cases hrun : env.runResult with
    | error e1 => exact ⟨e1, by rw [hout, hrun]; rfl⟩
    | ok u => exact ⟨e, by rw [hout, hrun, hf]; rfl⟩

/-- Witness for C5: the runtime-driver future fails. -/
theorem C5_witness :
    (∃ e2, (main envRunFails).outcome = .returned (.error e2)) ∧
    (main envRunFails).events.count .startInvokeLoop = 1 ∧
    (main envRunFails).events.count .spawnListener = 1 :=
  C5_join_failure_fails_process envRunFails "runtime task failed" rfl rfl (Or.inl rfl)

/-- C6: if the one-time registration call fails, the process panics at startup
with the `expect` message, never starts the invocation loop, and never retries
registration (the trace holds exactly one attempt). -/
theorem C6_registration_failure_fatal (env : Env) (h : env.registerOk = false) :
    (main env).outcome = .panicked "could not register extension" ∧
    MainEvent.startInvokeLoop ∉ (main env).events ∧
    (main env).events.count .registerAttempt = 1 := by
  have hev : (main env).events = startupEvents false := by
    simp [main, h]
  refine ⟨by simp [main, h], by rw [hev]; simp [startupEvents], by rw [hev]; decide⟩

/-- Witness for C6 at a concrete environment. -/
theorem C6_witness :
    (main envRegisterFails).outcome = .panicked "could not register extension" ∧
    MainEvent.startInvokeLoop ∉ (main envRegisterFails).events ∧
    (main envRegisterFails).events.count .registerAttempt = 1 :=
  C6_registration_failure_fatal envRegisterFails rfl

/-- C7 counterexample: with the SIGINT handler installation failing and
everything else healthy, the listener task panics but the process does NOT
abort — it runs the invocation loop and main even returns success.  This
refutes the claim that a signal-handler installation failure aborts the
process the way a registration failure does: the `unwrap` panic happens inside
the `tokio::spawn`ed task, whose dropped `JoinHandle` swallows it. -/
theorem C7_counterexample :
    (main envSigintInstallFails).listenerPanicked = true ∧
    (main envSigintInstallFails).outcome = .returned (.ok ()) ∧
    MainEvent.startInvokeLoop ∈ (main envSigintInstallFails).events := by
  refine ⟨rfl, rfl, by simp [main, envSigintInstallFails, startupEvents]⟩

/-- C7 (amended): if installation of a signal handler fails, the shutdown
listener task panics immediately with no retry, but the panic is confined to
the spawned task: the process itself does not abort, the invocation loop
starts, and no graceful-shutdown exit can ever occur. -/
theorem C7_amended_listener_panic_confined (env : Env)
    (hreg : env.registerOk = true)
    (hbad : env.sigintOk = false ∨ env.sigtermOk = false) :
    (main env).listenerPanicked = true ∧
    (∀ s, shutdown_listener env.sigintOk env.sigtermOk s =
      .taskPanic "called `Result::unwrap()` on an `Err` value") ∧
    (∀ c logs, (main env).outcome ≠ .exited c logs) ∧
    MainEvent.startInvokeLoop ∈ (main env).events := by
  have hlis : ∀ s, shutdown_listener env.sigintOk env.sigtermOk s =
      .taskPanic "called `Result::unwrap()` on an `Err` value" := by
    intro s
    rcases hbad with hf | hf
    · rw [shutdown_listener, if_pos hf]
    · by_cases hsi2 : env.sigintOk = false
      · rw [shutdown_listener, if_pos hsi2]
      · rw [shutdown_listener, if_neg hsi2, if_pos hf]
  refine ⟨?_, hlis, ?_, ?_⟩
  · rcases hbad with hf | hf
    · simp [main, hreg, hf]
    · simp [main, hreg, hf]
  · intro c logs
    cases hrace : env.race with
    | join => simp [main, hreg, hrace]
    | signal s =>
      have h := hlis s
      simp only [main, hreg, hrace, h, if_pos rfl]
      cases s <;> cases hsi : env.sigintOk <;> simp
  · have hev : (main env).events = startupEvents true := by
      simp [main, hreg]
    rw [hev]
    simp [startupEvents]

/-- Witness for the amended C7 at a concrete environment. -/
theorem C7_witness :
    (main envSigintInstallFails).listenerPanicked = true ∧
    (∀ s, shutdown_listener envSigintInstallFails.sigintOk
      envSigintInstallFails.sigtermOk s =
      .taskPanic "called `Result::unwrap()` on an `Err` value") ∧
    (∀ c logs, (main envSigintInstallFails).outcome ≠ .exited c logs) ∧
    MainEvent.startInvokeLoop ∈ (main envSigintInstallFails).events :=
  C7_amended_listener_panic_confined envSigintInstallFails rfl (Or.inl rfl)

end GracefulShutdown





